import Mathlib

/-!
Verification development for the bank-reconciliation file-ingestion pipeline
(`upload/tasks.py` and `upload/models.py`).

The Python source is shallowly embedded: pandas DataFrames become a header
list plus rows of cells, database tables become lists of records threaded
through the functions, and every fallible step returns `Except`, mirroring
the places where the Python code can raise.  External library calls
(pandas' generic date parser, the Excel/ODS/JSON readers) are modelled
abstractly and are documented as such at their definitions; no settled
property depends on their values.  Strings are manipulated through their
character lists with structural recursion so that every definition is
executable by the kernel.
-/

namespace NewScaling

/-! ## Character-list string utilities (models of Python `str` operations) -/

/-- Model of Python `str.strip` on the leading side: drop leading whitespace. -/
def dropLeadingWS (cs : List Char) : List Char :=
  cs.dropWhile Char.isWhitespace

/-- Model of Python `str.strip`: drop leading and trailing whitespace. -/
def trimChars (cs : List Char) : List Char :=
  (dropLeadingWS (dropLeadingWS cs.reverse).reverse)

/-- Model of Python `str.strip` at `String` type. -/
def strip (s : String) : String :=
  String.mk (trimChars s.data)

/-- Split a character list on a delimiter character, keeping empty pieces,
    modelling Python / pandas field splitting. -/
def splitOnChar (d : Char) : List Char → List (List Char)
  | [] => [[]]
  | c :: cs =>
    let r := splitOnChar d cs
    if c = d then [] :: r
    else
      match r with
      | [] => [[c]]
      | h :: t => (c :: h) :: t

/-- A word character in the sense of the regex `\w`: ASCII letter, digit
    or underscore (the source data is ASCII). -/
def isWordChar (c : Char) : Bool :=
  c.isAlphanum || c = '_'

/-- Model of the column normalisation of `tasks.py`
    (`.str.strip()` followed by `re.sub(r'\W+', '', x)`, and
    `re.sub(r'\W+', '', col.strip())` for the mapping columns):
    strip surrounding whitespace, then delete every non-word character. -/
def cleanName (s : String) : String :=
  String.mk ((trimChars s.data).filter isWordChar)

/-- Model of Python `str.endswith` for extension sniffing. -/
def endsWithStr (s suffix : String) : Bool :=
  suffix.data.isSuffixOf s.data

/-- Numeric value of a decimal digit character. -/
def digitVal (c : Char) : Nat :=
  c.toNat - '0'.toNat

/-- Value of a list of decimal digit characters, most significant first. -/
def digitsToNat (cs : List Char) : Nat :=
  cs.foldl (fun a c => 10 * a + digitVal c) 0

/-- Model of Python `int(s)` on a string: strip whitespace, allow one
    optional sign, then require a nonempty run of decimal digits; any other
    shape raises `ValueError`, modelled as `none`. -/
def parsePyInt (s : String) : Option Int :=
  match trimChars s.data with
  | [] => none
  | c :: rest =>
    if c = '-' then
      if !rest.isEmpty && rest.all Char.isDigit then some (-(digitsToNat rest : Int)) else none
    else if c = '+' then
      if !rest.isEmpty && rest.all Char.isDigit then some (digitsToNat rest : Int) else none
    else if (c :: rest).all Char.isDigit then some (digitsToNat (c :: rest) : Int)
    else none

/-! ## Calendar dates and the date parser `try_parse_date` -/

/-- A calendar date as produced by a successful parse. -/
structure Date where
  year : Nat
  month : Nat
  day : Nat
deriving DecidableEq

/-- Leap-year rule used by the calendar validation. -/
def isLeap (y : Nat) : Bool :=
  y % 4 = 0 && (y % 100 ≠ 0 || y % 400 = 0)

/-- Number of days of month `m` of year `y`. -/
def daysInMonth (y m : Nat) : Nat :=
  if m = 2 then (if isLeap y then 29 else 28)
  else if m = 4 ∨ m = 6 ∨ m = 9 ∨ m = 11 then 30
  else 31

/-- Calendar validity of a parsed date. -/
def ValidDate (d : Date) : Prop :=
  1 ≤ d.month ∧ d.month ≤ 12 ∧ 1 ≤ d.day ∧ d.day ≤ daysInMonth d.year d.month

instance (d : Date) : Decidable (ValidDate d) := by
  unfold ValidDate; infer_instance

/-- Build a date after the `strptime`-style range validation; out-of-range
    components make the format attempt fail. -/
def mkDate (y m d : Nat) : Option Date :=
  if ValidDate ⟨y, m, d⟩ then some ⟨y, m, d⟩ else none

/-- One or two decimal digits, as `%d`, `%m` and `%y` accept them. -/
def parse2 (cs : List Char) : Option Nat :=
  match cs with
  | [a] => if a.isDigit then some (digitVal a) else none
  | [a, b] => if a.isDigit && b.isDigit then some (10 * digitVal a + digitVal b) else none
  | _ => none

/-- Exactly four decimal digits, as `%Y` matches the years of this data. -/
def parse4 (cs : List Char) : Option Nat :=
  match cs with
  | [a, b, c, d] =>
    if a.isDigit && b.isDigit && c.isDigit && d.isDigit then
      some (1000 * digitVal a + 100 * digitVal b + 10 * digitVal c + digitVal d)
    else none
  | _ => none

/-- Month number of a `%b` month abbreviation, case-insensitively. -/
def monthFromAbbrev (cs : List Char) : Option Nat :=
  let l := String.mk (cs.map Char.toLower)
  if l = "jan" then some 1 else if l = "feb" then some 2
  else if l = "mar" then some 3 else if l = "apr" then some 4
  else if l = "may" then some 5 else if l = "jun" then some 6
  else if l = "jul" then some 7 else if l = "aug" then some 8
  else if l = "sep" then some 9 else if l = "oct" then some 10
  else if l = "nov" then some 11 else if l = "dec" then some 12
  else none

/-- The `strptime` two-digit-year pivot: 00–68 map to 2000–2068,
    69–99 to 1969–1999. -/
def expandY2 (y2 : Nat) : Nat :=
  if y2 ≤ 68 then 2000 + y2 else 1900 + y2

/-- Format `%d-%b-%y` (e.g. `01-Jan-24`). -/
def parse_dMonY (s : String) : Option Date :=
  match splitOnChar '-' s.data with
  | [d, mon, y] =>
    match parse2 d, monthFromAbbrev mon, parse2 y with
    | some dn, some mn, some y2 => mkDate (expandY2 y2) mn dn
    | _, _, _ => none
  | _ => none

/-- Format `%Y-%m-%d` (e.g. `2024-01-01`). -/
def parse_Ymd (s : String) : Option Date :=
  match splitOnChar '-' s.data with
  | [y, m, d] =>
    match parse4 y, parse2 m, parse2 d with
    | some yn, some mn, some dn => mkDate yn mn dn
    | _, _, _ => none
  | _ => none

/-- Format `%d/%m/%Y` (e.g. `01/01/2024`). -/
def parse_dmY_slash (s : String) : Option Date :=
  match splitOnChar '/' s.data with
  | [d, m, y] =>
    match parse2 d, parse2 m, parse4 y with
    | some dn, some mn, some yn => mkDate yn mn dn
    | _, _, _ => none
  | _ => none

/-- Format `%d-%m-%Y` (e.g. `01-01-2024`). -/
def parse_dmY_dash (s : String) : Option Date :=
  match splitOnChar '-' s.data with
  | [d, m, y] =>
    match parse2 d, parse2 m, parse4 y with
    | some dn, some mn, some yn => mkDate yn mn dn
    | _, _, _ => none
  | _ => none

/-- Format `%m/%d/%Y` (e.g. `01/31/2024`). -/
def parse_mdY_slash (s : String) : Option Date :=
  match splitOnChar '/' s.data with
  | [m, d, y] =>
    match parse2 m, parse2 d, parse4 y with
    | some mn, some dn, some yn => mkDate yn mn dn
    | _, _, _ => none
  | _ => none

/-- The fixed, ordered format list of `try_parse_date`
    (`('%d-%b-%y', '%Y-%m-%d', '%d/%m/%Y', '%d-%m-%Y', '%m/%d/%Y')`). -/
def dateFormats : List (String → Option Date) :=
  [parse_dMonY, parse_Ymd, parse_dmY_slash, parse_dmY_dash, parse_mdY_slash]

/-- Model of the external call `pandas.to_datetime(s, errors='coerce')`,
    reached only after all five explicit formats fail.  The library's
    best-effort parser is outside the repository; it is abstracted here as
    the missing value (`NaT`).  No settled claim depends on its value. -/
def pdToDatetimeCoerce (_s : String) : Option Date :=
  none

/-- Model of `try_parse_date` of `tasks.py`: a null or whitespace-only
    input is `NaT`; otherwise the stripped string is tried against the five
    explicit formats in order, the first success winning, with the generic
    coercing parse as last resort. -/
def try_parse_date (x : Option String) : Option Date :=
  match x with
  | none => none
  | some s =>
    if strip s = "" then none
    else
      match dateFormats.findSome? (fun f => f (strip s)) with
      | some d => some d
      | none => pdToDatetimeCoerce (strip s)

/-! ## Numeric coercion (`pd.to_numeric(..., errors='coerce')`) -/

/-- Unsigned decimal literal with an optional fractional part, as a rational. -/
def parseUnsignedRat (cs : List Char) : Option Rat :=
  match splitOnChar '.' cs with
  | [intPart] =>
    if !intPart.isEmpty && intPart.all Char.isDigit then some (digitsToNat intPart : Rat)
    else none
  | [intPart, fracPart] =>
    if (!intPart.isEmpty || !fracPart.isEmpty)
        && intPart.all Char.isDigit && fracPart.all Char.isDigit then
      some ((digitsToNat intPart : Rat)
        + (digitsToNat fracPart : Rat) / ((10 : Rat) ^ fracPart.length))
    else none
  | _ => none

/-- Model of `pd.to_numeric(s, errors='coerce')` on a string: an optionally
    signed decimal numeral parses to its value, anything else coerces to the
    missing value (`NaN`), never raising. -/
def toNumericStr (s : String) : Option Rat :=
  match trimChars s.data with
  | '-' :: rest => (parseUnsignedRat rest).map (fun q => -q)
  | '+' :: rest => parseUnsignedRat rest
  | t => parseUnsignedRat t

/-! ## Tabular data (the pandas DataFrame of string cells) -/

/-- A cell after loading (`dtype=str`): a string, a parsed date (after a
    date column is rewritten by `try_parse_date`), or missing (`NaN`). -/
inductive CellVal where
  | str (s : String)
  | date (d : Date)
  | na
deriving DecidableEq

/-- A loaded table: header names and rows of cells. -/
structure DF where
  cols : List String
  rows : List (List CellVal)
deriving DecidableEq

/-- An empty CSV field becomes the missing value, as `pd.read_csv` reads it. -/
def cellOf (cs : List Char) : CellVal :=
  if cs.isEmpty then CellVal.na else CellVal.str (String.mk cs)

/-- Model of `pd.read_csv(StringIO(text), delimiter=d, dtype=str)`: split
    into lines, skip blank lines, first line is the header; an input with no
    nonblank line raises `EmptyDataError`. -/
def readCsv (delimiter : Char) (content : String) : Except String DF :=
  match (splitOnChar '\n' content.data).filter (fun l => !l.isEmpty) with
  | [] => Except.error "No columns to parse from file"
  | header :: body =>
    Except.ok
      { cols := (splitOnChar delimiter header).map (fun cs => String.mk cs)
        rows := body.map (fun l => (splitOnChar delimiter l).map cellOf) }

/-- The fixed delimiter priority list of `process_uploaded_files`. -/
def possible_delimiters : List Char :=
  [',', ';', '\t', '|', ' ', '.', '_']

/-- The first delimiter of the priority list occurring anywhere in the text,
    defaulting to the comma. -/
def detectDelim (content : String) : Char :=
  (possible_delimiters.find? (fun d => content.data.contains d)).getD ','

/-- Model of the external call `pd.read_excel(..., engine='openpyxl',
    dtype=str)`.  The spreadsheet reader is an external library outside the
    repository; it is abstracted as a load failure.  No settled claim
    depends on its value. -/
def readExcelModel (_content : String) : Except String DF :=
  Except.error "excel reader not modelled"

/-- Model of the external ODS-to-CSV conversion (`pyexcel_ods.get_data`
    followed by `DataFrame.to_csv`); abstracted as an empty result, which is
    also what `convert_to_csv` returns whenever the conversion raises.  No
    settled claim depends on its value. -/
def odsToCsvModel (_content : String) : String := ""

/-- Model of the external JSON-to-CSV conversion (`json.loads` followed by
    `pd.json_normalize` and `DataFrame.to_csv`); abstracted like the ODS
    path.  No settled claim depends on its value. -/
def jsonToCsvModel (_content : String) : String := ""

/-- Model of `convert_to_csv` of `tasks.py`: dispatch on the extension; for
    any extension other than `.ods` and `.json` the function raises
    `ValueError("Unsupported file format: ...")`, but its own blanket
    `except` catches that very exception and returns the empty string. -/
def convert_to_csv (file_content file_name : String) : String :=
  if endsWithStr file_name ".ods" then odsToCsvModel file_content
  else if endsWithStr file_name ".json" then jsonToCsvModel file_content
  else ""

/-- Model of the loading step of `process_uploaded_files`: choose the reader
    from the file extension (`.csv`/`.txt` with delimiter detection,
    `.xlsx`/`.xls` through the spreadsheet reader, anything else through
    `convert_to_csv` re-read as comma-separated text). -/
def load_df (file_content file_name : String) : Except String DF :=
  if endsWithStr file_name ".csv" || endsWithStr file_name ".txt" then
    readCsv (detectDelim file_content) file_content
  else if endsWithStr file_name ".xlsx" || endsWithStr file_name ".xls" then
    readExcelModel file_content
  else
    readCsv ',' (convert_to_csv file_content file_name)

/-! ## The persisted record tables (`upload/models.py`) -/

/-- `BookingData` of `models.py`. -/
structure BookingData where
  bank_code : Nat
  txn_date : Option Date
  irctc_order_no : Int
  bank_booking_ref_no : Int
  booking_amount : Option Rat
  credited_date : Option Date
  cus_account_no : Option String
  remarks : Option String
deriving DecidableEq

/-- `RefundData` of `models.py`. -/
structure RefundData where
  bank_code : Nat
  refund_date : Option Date
  irctc_order_no : Int
  bank_booking_ref_no : Int
  bank_refund_ref_no : Int
  refund_amount : Option Rat
  debited_date : Option Date
  cus_account_no : Option String
  remarks : Option String
deriving DecidableEq

/-- The database state seen by the task: the two flat record tables. -/
structure Store where
  bookings : List BookingData
  refunds : List RefundData
deriving DecidableEq

/-- The initially empty database. -/
def emptyStore : Store := ⟨[], []⟩

/-! ## Bank registry (`BANK_CODE_MAPPING`, `BANK_MAPPINGS`) -/

/-- `BANK_CODE_MAPPING` of `tasks.py`. -/
def BANK_CODE_MAPPING (bank_name : String) : Option Nat :=
  if bank_name = "hdfc" then some 101
  else if bank_name = "icici" then some 102
  else if bank_name = "karur_vysya" then some 40
  else none

/-- One entry of `BANK_MAPPINGS`: the required source columns and the
    declared rename table from source column name to canonical field name. -/
structure BankMapping where
  columns : List String
  column_mapping : List (String × String)
deriving DecidableEq

/-- `BANK_MAPPINGS` of `tasks.py`, as the lookup
    `BANK_MAPPINGS.get(bank_name, {}).get(transaction_type)`.  Note that
    `column_mapping` is declared by the source but never applied anywhere in
    `process_uploaded_files`. -/
def BANK_MAPPINGS (bank_name transaction_type : String) : Option BankMapping :=
  if bank_name = "hdfc" then
    if transaction_type = "booking" then
      some { columns := ["IRCTC ORDER NO.", "BANK BOOKING REF.NO.", "BOOKING AMOUNT"]
             column_mapping :=
               [("IRCTC ORDER NO.", "irctc_order_no"),
                ("BANK BOOKING REF.NO.", "bank_booking_ref_no"),
                ("BOOKING AMOUNT", "sale_amount")] }
    else if transaction_type = "refund" then
      some { columns := ["REFUND ORDER NO.", "REFUND AMOUNT", "CREDITED ON"]
             column_mapping :=
               [("REFUND ORDER NO.", "irctc_order_no"),
                ("REFUND AMOUNT", "sale_amount"),
                ("CREDITED ON", "date")] }
    else none
  else if bank_name = "icici" then
    if transaction_type = "booking" then
      some { columns := ["ORDER NO.", "REFERENCE NO.", "AMOUNT"]
             column_mapping :=
               [("ORDER NO.", "irctc_order_no"),
                ("REFERENCE NO.", "bank_booking_ref_no"),
                ("AMOUNT", "sale_amount"),
                ("BRANCH CODE", "branch_code"),
                ("OTHER COLUMN", "other_column")] }
    else if transaction_type = "refund" then
      some { columns := ["ORDER NO.", "REFUND AMOUNT", "CREDIT DATE"]
             column_mapping :=
               [("ORDER NO.", "irctc_order_no"),
                ("REFUND AMOUNT", "sale_amount"),
                ("CREDIT DATE", "date"),
                ("BRANCH CODE", "branch_code"),
                ("OTHER COLUMN", "other_column")] }
    else none
  else if bank_name = "karur_vysya" then
    if transaction_type = "booking" then
      some { columns :=
               ["TXN DATE", "IRCTC ORDER NO.", "BANK BOOKING REF.NO.",
                "BOOKING AMOUNT", "CREDITED ON"]
             column_mapping :=
               [("TXNDATE", "txn_date"),
                ("IRCTCORDERNO", "irctc_order_no"),
                ("BANKBOOKINGREFNO", "bank_booking_ref_no"),
                ("BOOKINGAMOUNT", "booking_amount"),
                ("CREDITEDON", "credited_date")] }
    else if transaction_type = "refund" then
      some { columns :=
               ["REFUND DATE", "IRCTC ORDER NO.", "BANK BOOKING REF.NO.",
                "BANK REFUND REF.NO.", "REFUND AMOUNT", "DEBITED ON"]
             column_mapping :=
               [("REFUNDDATE", "refund_date"),
                ("IRCTCORDERNO", "irctc_order_no"),
                ("BANKBOOKINGREFNO", "bank_booking_ref_no"),
                ("BANKREFUNDREFNO", "bank_refund_ref_no"),
                ("REFUNDAMOUNT", "refund_amount"),
                ("DEBITEDON", "debited_date")] }
    else none
  else none

/-! ## Column access and rewriting on the loaded table -/

/-- Index of a column name in a header list. -/
def findIdx (name : String) : List String → Option Nat
  | [] => none
  | c :: cs => if c = name then some 0 else (findIdx name cs).map (· + 1)

/-- The error text of a Python `KeyError` on a missing column, as `str(e)`
    renders it. -/
def keyError (name : String) : String :=
  "'" ++ name ++ "'"

/-- Cell of a row under a named column; a name absent from the header raises
    `KeyError`, modelled as the error case. -/
def getCell (cols : List String) (r : List CellVal) (name : String) : Except String CellVal :=
  match findIdx name cols with
  | none => Except.error (keyError name)
  | some i => Except.ok (r.getD i CellVal.na)

/-- Replace the cell at one position of a row. -/
def modifyAt (f : CellVal → CellVal) : Nat → List CellVal → List CellVal
  | _, [] => []
  | 0, c :: cs => f c :: cs
  | n + 1, c :: cs => c :: modifyAt f n cs

/-- Model of `df[name] = df[name].apply(f)`: rewrite one column in every
    row; a missing column raises `KeyError`. -/
def applyCol (df : DF) (name : String) (f : CellVal → CellVal) : Except String DF :=
  match findIdx name df.cols with
  | none => Except.error (keyError name)
  | some i => Except.ok { df with rows := df.rows.map (fun r => modifyAt f i r) }

/-- `try_parse_date` lifted to a cell, as `.apply(try_parse_date)` maps it
    over a column: a missing cell stays `NaT`, a string cell becomes the
    parsed date or `NaT`. -/
def applyTryParse (c : CellVal) : CellVal :=
  match c with
  | CellVal.na => CellVal.na
  | CellVal.str s =>
    match try_parse_date (some s) with
    | some d => CellVal.date d
    | none => CellVal.na
  | CellVal.date d => CellVal.date d

/-- Model of `df = df[required_columns]`: keep exactly the named columns, in
    the given order (called only after the missing-columns check passed). -/
def selectColumns (df : DF) (names : List String) : DF :=
  { cols := names
    rows := df.rows.map (fun r =>
      names.map (fun n =>
        match findIdx n df.cols with
        | some i => r.getD i CellVal.na
        | none => CellVal.na)) }

/-! ## Row coercion and the persisting loops -/

/-- Model of `int(row[c]) if pd.notnull(row[c]) else 0` on a cell: a missing
    value coerces to zero; a string must be a wellformed integer literal or
    `int` raises `ValueError`; a timestamp cell would raise `TypeError`
    (unreachable: date columns are never fed to the integer coercion). -/
def coerceRefCell (c : CellVal) : Except String Int :=
  match c with
  | CellVal.na => Except.ok 0
  | CellVal.str s =>
    match parsePyInt s with
    | some n => Except.ok n
    | none => Except.error ("invalid literal for int() with base 10: " ++ s)
  | CellVal.date _ => Except.error "int() argument cannot be a timestamp"

/-- `pd.to_numeric(..., errors='coerce')` on a cell: never raises. -/
def toNumericCell (c : CellVal) : Option Rat :=
  match c with
  | CellVal.na => none
  | CellVal.str s => toNumericStr s
  | CellVal.date _ => none

/-- A date-valued cell as stored into a record's date field. -/
def cellDate (c : CellVal) : Option Date :=
  match c with
  | CellVal.date d => some d
  | _ => none

/-- The existence check
    `BookingData.objects.filter(irctc_order_no=…, bank_booking_ref_no=…).exists()`. -/
def existsBooking (st : Store) (i r : Int) : Bool :=
  st.bookings.any (fun b => b.irctc_order_no == i && b.bank_booking_ref_no == r)

/-- The existence check on the refund table, keyed by the same two fields. -/
def existsRefund (st : Store) (i r : Int) : Bool :=
  st.refunds.any (fun b => b.irctc_order_no == i && b.bank_booking_ref_no == r)

/-- The per-row field extraction of the booking loop, in source order:
    coerce `irctc_order_no`, coerce `bank_booking_ref_no`, then compute the
    amount; each column access can raise `KeyError` and each integer
    coercion can raise `ValueError`. -/
def bookingRowKey (cols : List String) (r : List CellVal) :
    Except String (Int × Int × Option Rat) := do
  let v1 ← getCell cols r "irctc_order_no"
  let irctc ← coerceRefCell v1
  let v2 ← getCell cols r "bank_booking_ref_no"
  let refNo ← coerceRefCell v2
  let v3 ← getCell cols r "booking_amount"
  pure (irctc, refNo, toNumericCell v3)

/-- The date fields read by `BookingData.objects.create(...)`, accessed only
    on the insert path. -/
def bookingRowDates (cols : List String) (r : List CellVal) :
    Except String (Option Date × Option Date) := do
  let vt ← getCell cols r "txn_date"
  let vc ← getCell cols r "credited_date"
  pure (cellDate vt, cellDate vc)

/-- `BookingData.objects.create(...)`: append the new record to the table. -/
def addBooking (st : Store) (bank_code : Nat) (td cd : Option Date) (amt : Option Rat)
    (i refNo : Int) : Store :=
  { st with bookings := st.bookings ++
      [{ bank_code := bank_code, txn_date := td, irctc_order_no := i,
         bank_booking_ref_no := refNo, booking_amount := amt,
         credited_date := cd, cus_account_no := none, remarks := none }] }

/-- The booking row loop of `process_uploaded_files` (lines 182–198):
    coerce the key fields, skip the row when a record with the same
    `(irctc_order_no, bank_booking_ref_no)` exists, create it otherwise.
    Any exception aborts the remaining rows but keeps the rows already
    persisted, so the error case carries the store reached so far. -/
def processBookingRows (bank_code : Nat) (cols : List String) :
    List (List CellVal) → Store → Except (String × Store) Store
  | [], st => Except.ok st
  | r :: rest, st =>
    match bookingRowKey cols r with
    | Except.error e => Except.error (e, st)
    | Except.ok (irctc, refNo, amt) =>
      if existsBooking st irctc refNo then
        processBookingRows bank_code cols rest st
      else
        match bookingRowDates cols r with
        | Except.error e => Except.error (e, st)
        | Except.ok (td, cd) =>
          processBookingRows bank_code cols rest (addBooking st bank_code td cd amt irctc refNo)

/-- The per-row field extraction of the refund loop, in source order. -/
def refundRowKey (cols : List String) (r : List CellVal) :
    Except String (Int × Int × Int × Option Rat) := do
  let v1 ← getCell cols r "irctc_order_no"
  let irctc ← coerceRefCell v1
  let v2 ← getCell cols r "bank_booking_ref_no"
  let refNo ← coerceRefCell v2
  let v3 ← getCell cols r "bank_refund_ref_no"
  let refundRef ← coerceRefCell v3
  let v4 ← getCell cols r "refund_amount"
  pure (irctc, refNo, refundRef, toNumericCell v4)

/-- The date fields read by `RefundData.objects.create(...)`. -/
def refundRowDates (cols : List String) (r : List CellVal) :
    Except String (Option Date × Option Date) := do
  let vt ← getCell cols r "refund_date"
  let vc ← getCell cols r "debited_date"
  pure (cellDate vt, cellDate vc)

/-- `RefundData.objects.create(...)`: append the new record to the table. -/
def addRefund (st : Store) (bank_code : Nat) (rd dd : Option Date) (amt : Option Rat)
    (i refNo refundRef : Int) : Store :=
  { st with refunds := st.refunds ++
      [{ bank_code := bank_code, refund_date := rd, irctc_order_no := i,
         bank_booking_ref_no := refNo, bank_refund_ref_no := refundRef,
         refund_amount := amt, debited_date := dd,
         cus_account_no := none, remarks := none }] }

/-- The refund row loop of `process_uploaded_files` (lines 212–230); the
    duplicate check uses only `(irctc_order_no, bank_booking_ref_no)`,
    not the refund reference. -/
def processRefundRows (bank_code : Nat) (cols : List String) :
    List (List CellVal) → Store → Except (String × Store) Store
  | [], st => Except.ok st
  | r :: rest, st =>
    match refundRowKey cols r with
    | Except.error e => Except.error (e, st)
    | Except.ok (irctc, refNo, refundRef, amt) =>
      if existsRefund st irctc refNo then
        processRefundRows bank_code cols rest st
      else
        match refundRowDates cols r with
        | Except.error e => Except.error (e, st)
        | Except.ok (rd, dd) =>
          processRefundRows bank_code cols rest
            (addRefund st bank_code rd dd amt irctc refNo refundRef)

/-! ## The per-file task `process_uploaded_files` -/

/-- The booking branch of `process_uploaded_files`: it first evaluates
    `df['txn_date'].apply(try_parse_date)` and the same for
    `'credited_date'` — accesses by the canonical names although the
    declared `column_mapping` rename was never applied — then resolves the
    bank code and runs the row loop. -/
def bookingBranch (df : DF) (bank_name : String) (st : Store) :
    Except (String × Store) Store :=
  match applyCol df "txn_date" applyTryParse with
  | Except.error e => Except.error (e, st)
  | Except.ok df1 =>
    match applyCol df1 "credited_date" applyTryParse with
    | Except.error e => Except.error (e, st)
    | Except.ok df2 =>
      let bank_code := (BANK_CODE_MAPPING bank_name).getD 0
      if bank_code = 0 then
        Except.error ("No bank code found for bank: " ++ bank_name, st)
      else
        processBookingRows bank_code df2.cols df2.rows st

/-- The refund branch of `process_uploaded_files`, symmetric to the booking
    branch with `'refund_date'` and `'debited_date'`. -/
def refundBranch (df : DF) (bank_name : String) (st : Store) :
    Except (String × Store) Store :=
  match applyCol df "refund_date" applyTryParse with
  | Except.error e => Except.error (e, st)
  | Except.ok df1 =>
    match applyCol df1 "debited_date" applyTryParse with
    | Except.error e => Except.error (e, st)
    | Except.ok df2 =>
      let bank_code := (BANK_CODE_MAPPING bank_name).getD 0
      if bank_code = 0 then
        Except.error ("No bank code found for bank: " ++ bank_name, st)
      else
        processRefundRows bank_code df2.cols df2.rows st

/-- Render a missing-columns list in the error message. -/
def joinNames : List String → String
  | [] => ""
  | [n] => n
  | n :: rest => n ++ ", " ++ joinNames rest

/-- The body of the `try` block of `process_uploaded_files`: load, normalise
    the header, look up the bank mapping, normalise and check the required
    columns, select them, and run the branch of the transaction type.  The
    error case carries the store reached when the exception was raised,
    since committed rows are not rolled back. -/
def runPipeline (file_content file_name bank_name transaction_type : String)
    (st : Store) : Except (String × Store) Store :=
  match load_df file_content file_name with
  | Except.error e => Except.error (e, st)
  | Except.ok df0 =>
    let df1 : DF := { df0 with cols := df0.cols.map cleanName }
    match BANK_MAPPINGS bank_name transaction_type with
    | none =>
      Except.error ("No mapping found for bank: " ++ bank_name
        ++ ", transaction type: " ++ transaction_type, st)
    | some mappings =>
      let required_columns := mappings.columns.map cleanName
      let missing_columns := required_columns.filter (fun c => !df1.cols.contains c)
      if !missing_columns.isEmpty then
        Except.error ("Missing columns in DataFrame: " ++ joinNames missing_columns, st)
      else
        let df2 := selectColumns df1 required_columns
        if transaction_type = "booking" then bookingBranch df2 bank_name st
        else if transaction_type = "refund" then refundBranch df2 bank_name st
        else Except.ok st

/-- `process_uploaded_files` of `tasks.py`: the whole pipeline inside one
    `try`, every exception converted into the failure status string; the
    returned store is the database state after the run. -/
def process_uploaded_files (file_content file_name bank_name transaction_type : String)
    (st : Store) : String × Store :=
  match runPipeline file_content file_name bank_name transaction_type st with
  | Except.ok st1 => ("Successfully processed " ++ file_name, st1)
  | Except.error (e, st1) => ("Failed to process " ++ file_name ++ ": " ++ e, st1)

/-- The database state an aborted or completed run leaves behind. -/
def resultStore : Except (String × Store) Store → Store
  | Except.ok st => st
  | Except.error (_, st) => st

/-! ## Helper lemmas -/

lemma isWhitespace_eq_false_of_isDigit {c : Char} (h : c.isDigit = true) :
    c.isWhitespace = false := by
  cases hw : c.isWhitespace with
  | false => rfl
  | true =>
    exfalso
    have hw1 : c = ' ' ∨ c = '\t' ∨ c = '\r' ∨ c = '\n' := by
      simpa [Char.isWhitespace, or_assoc] using hw
    rcases hw1 with rfl | rfl | rfl | rfl <;> simp [Char.isDigit] at h

lemma dropLeadingWS_eq_self {cs : List Char} (h : ∀ c ∈ cs, c.isWhitespace = false) :
    dropLeadingWS cs = cs := by
  cases cs with
  | nil => rfl
  | cons c rest =>
    unfold dropLeadingWS
    rw [List.dropWhile_cons, h c (List.mem_cons_self c rest)]
    simp

lemma trimChars_eq_self {cs : List Char} (h : ∀ c ∈ cs, c.isWhitespace = false) :
    trimChars cs = cs := by
  unfold trimChars
  rw [dropLeadingWS_eq_self (fun c hc => h c (List.mem_reverse.mp hc)),
    List.reverse_reverse, dropLeadingWS_eq_self h]

lemma parsePyInt_all_digits {cs : List Char} (hne : cs ≠ [])
    (h : ∀ c ∈ cs, c.isDigit = true) :
    parsePyInt (String.mk cs) = some (digitsToNat cs : Int) := by
  have hnw : ∀ c ∈ cs, c.isWhitespace = false :=
    fun c hc => isWhitespace_eq_false_of_isDigit (h c hc)
  unfold parsePyInt
  show (match trimChars cs with
    | [] => none
    | c :: rest => _) = _
  rw [trimChars_eq_self hnw]
  cases cs with
  | nil => exact absurd rfl hne
  | cons c rest =>
    have hc : c.isDigit = true := h c (List.mem_cons_self c rest)
    have hminus : ¬ c = '-' := by rintro rfl; simp [Char.isDigit] at hc
    have hplus : ¬ c = '+' := by rintro rfl; simp [Char.isDigit] at hc
    have hall : (c :: rest).all Char.isDigit = true := List.all_eq_true.mpr h
    simp only [if_neg hminus, if_neg hplus, hall, if_true]

lemma mkDate_valid {y m d : Nat} {dt : Date} (h : mkDate y m d = some dt) :
    ValidDate dt := by
  unfold mkDate at h
  split at h
  · cases h; assumption
  · cases h

lemma parse_dMonY_valid {s : String} {d : Date} (h : parse_dMonY s = some d) :
    ValidDate d := by
  unfold parse_dMonY at h
  split at h
  · split at h
    · exact mkDate_valid h
    · cases h
  · cases h

lemma parse_Ymd_valid {s : String} {d : Date} (h : parse_Ymd s = some d) :
    ValidDate d := by
  unfold parse_Ymd at h
  split at h
  · split at h
    · exact mkDate_valid h
    · cases h
  · cases h

lemma parse_dmY_slash_valid {s : String} {d : Date} (h : parse_dmY_slash s = some d) :
    ValidDate d := by
  unfold parse_dmY_slash at h
  split at h
  · split at h
    · exact mkDate_valid h
    · cases h
  · cases h

lemma parse_dmY_dash_valid {s : String} {d : Date} (h : parse_dmY_dash s = some d) :
    ValidDate d := by
  unfold parse_dmY_dash at h
  split at h
  · split at h
    · exact mkDate_valid h
    · cases h
  · cases h

lemma parse_mdY_slash_valid {s : String} {d : Date} (h : parse_mdY_slash s = some d) :
    ValidDate d := by
  unfold parse_mdY_slash at h
  split at h
  · split at h
    · exact mkDate_valid h
    · cases h
  · cases h

lemma dateFormats_valid {f : String → Option Date} (hf : f ∈ dateFormats)
    {s : String} {d : Date} (h : f s = some d) : ValidDate d := by
  simp only [dateFormats, List.mem_cons, List.not_mem_nil, or_false] at hf
  rcases hf with rfl | rfl | rfl | rfl | rfl
  · exact parse_dMonY_valid h
  · exact parse_Ymd_valid h
  · exact parse_dmY_slash_valid h
  · exact parse_dmY_dash_valid h
  · exact parse_mdY_slash_valid h

/-! ## The narrow dedup key and its invariant -/

/-- The narrow natural key the booking existence check uses. -/
def bkey (b : BookingData) : Int × Int :=
  (b.irctc_order_no, b.bank_booking_ref_no)

/-- The narrow natural key the refund existence check uses (the refund
    reference is not part of it). -/
def rkey (r : RefundData) : Int × Int :=
  (r.irctc_order_no, r.bank_booking_ref_no)

/-- No two persisted booking records share the narrow key. -/
def bookingKeysDistinct (st : Store) : Prop :=
  st.bookings.Pairwise (fun a b => bkey a ≠ bkey b)

/-- No two persisted refund records share the narrow key. -/
def refundKeysDistinct (st : Store) : Prop :=
  st.refunds.Pairwise (fun a b => rkey a ≠ rkey b)

lemma bkey_ne_of_existsBooking_false {st : Store} {i r : Int}
    (h : existsBooking st i r = false) : ∀ b ∈ st.bookings, bkey b ≠ (i, r) := by
  intro b hb heq
  have h1 : b.irctc_order_no = i := congrArg Prod.fst heq
  have h2 : b.bank_booking_ref_no = r := congrArg Prod.snd heq
  have ht : existsBooking st i r = true := by
    unfold existsBooking
    rw [List.any_eq_true]
    exact ⟨b, hb, by simp [h1, h2]⟩
  rw [h] at ht
  cases ht

lemma rkey_ne_of_existsRefund_false {st : Store} {i r : Int}
    (h : existsRefund st i r = false) : ∀ b ∈ st.refunds, rkey b ≠ (i, r) := by
  intro b hb heq
  have h1 : b.irctc_order_no = i := congrArg Prod.fst heq
  have h2 : b.bank_booking_ref_no = r := congrArg Prod.snd heq
  have ht : existsRefund st i r = true := by
    unfold existsRefund
    rw [List.any_eq_true]
    exact ⟨b, hb, by simp [h1, h2]⟩
  rw [h] at ht
  cases ht

lemma addBooking_keysDistinct {st : Store} {bc : Nat} {td cd : Option Date}
    {amt : Option Rat} {i refNo : Int}
    (hinv : bookingKeysDistinct st) (hex : existsBooking st i refNo = false) :
    bookingKeysDistinct (addBooking st bc td cd amt i refNo) := by
  unfold bookingKeysDistinct addBooking
  rw [List.pairwise_append]
  refine ⟨hinv, List.pairwise_singleton _ _, ?_⟩
  intro a ha b hb
  rw [List.mem_singleton] at hb
  subst hb
  exact bkey_ne_of_existsBooking_false hex a ha

lemma addRefund_keysDistinct {st : Store} {bc : Nat} {rd dd : Option Date}
    {amt : Option Rat} {i refNo refundRef : Int}
    (hinv : refundKeysDistinct st) (hex : existsRefund st i refNo = false) :
    refundKeysDistinct (addRefund st bc rd dd amt i refNo refundRef) := by
  unfold refundKeysDistinct addRefund
  rw [List.pairwise_append]
  refine ⟨hinv, List.pairwise_singleton _ _, ?_⟩
  intro a ha b hb
  rw [List.mem_singleton] at hb
  subst hb
  exact rkey_ne_of_existsRefund_false hex a ha

lemma processBookingRows_preserves (bc : Nat) (cols : List String) :
    ∀ (rows : List (List CellVal)) (st : Store),
      bookingKeysDistinct st →
      bookingKeysDistinct (resultStore (processBookingRows bc cols rows st)) := by
  intro rows
  induction rows with
  | nil => intro st h; exact h
  | cons r rest ih =>
    intro st h
    show bookingKeysDistinct (resultStore
      (match bookingRowKey cols r with
        | Except.error e => Except.error (e, st)
        | Except.ok (irctc, refNo, amt) =>
          if existsBooking st irctc refNo then
            processBookingRows bc cols rest st
          else
            match bookingRowDates cols r with
            | Except.error e => Except.error (e, st)
            | Except.ok (td, cd) =>
              processBookingRows bc cols rest (addBooking st bc td cd amt irctc refNo)))
    cases hk : bookingRowKey cols r with
    | error e => exact h
    | ok trip =>
      obtain ⟨irctc, refNo, amt⟩ := trip
      simp only []
      cases hex : existsBooking st irctc refNo with
      | true => simpa [hex] using ih st h
      | false =>
        simp only [hex, Bool.false_eq_true, if_false]
        cases hd : bookingRowDates cols r with
        | error e => exact h
        | ok p =>
          obtain ⟨td, cd⟩ := p
          exact ih _ (addBooking_keysDistinct h hex)

lemma processRefundRows_preserves (bc : Nat) (cols : List String) :
    ∀ (rows : List (List CellVal)) (st : Store),
      refundKeysDistinct st →
      refundKeysDistinct (resultStore (processRefundRows bc cols rows st)) := by
  intro rows
  induction rows with
  | nil => intro st h; exact h
  | cons r rest ih =>
    intro st h
    show refundKeysDistinct (resultStore
      (match refundRowKey cols r with
        | Except.error e => Except.error (e, st)
        | Except.ok (irctc, refNo, refundRef, amt) =>
          if existsRefund st irctc refNo then
            processRefundRows bc cols rest st
          else
            match refundRowDates cols r with
            | Except.error e => Except.error (e, st)
            | Except.ok (rd, dd) =>
              processRefundRows bc cols rest
                (addRefund st bc rd dd amt irctc refNo refundRef)))
    cases hk : refundRowKey cols r with
    | error e => exact h
    | ok quad =>
      obtain ⟨irctc, refNo, refundRef, amt⟩ := quad
      simp only []
      cases hex : existsRefund st irctc refNo with
      | true => simpa [hex] using ih st h
      | false =>
        simp only [hex, Bool.false_eq_true, if_false]
        cases hd : refundRowDates cols r with
        | error e => exact h
        | ok p =>
          obtain ⟨rd, dd⟩ := p
          exact ih _ (addRefund_keysDistinct h hex)

lemma countP_le_one_of_pairwise_ne {α β : Type} [DecidableEq β] (f : α → β) (k : β) :
    ∀ l : List α, l.Pairwise (fun a b => f a ≠ f b) →
      l.countP (fun a => decide (f a = k)) ≤ 1 := by
  intro l
  induction l with
  | nil => intro; simp
  | cons a t ih =>
    intro h
    rw [List.pairwise_cons] at h
    obtain ⟨ha, ht⟩ := h
    rw [List.countP_cons]
    by_cases hk : f a = k
    · have hz : t.countP (fun x => decide (f x = k)) = 0 := by
        rw [List.countP_eq_zero]
        intro x hx
        simp only [decide_eq_true_eq]
        intro hxk
        exact ha x hx (by rw [hk, hxk])
      simp [hk, hz]
    · simpa [hk] using ih ht

/-! ## Concrete inputs used by the claim theorems -/

/-- The end-to-end scenario file: the `karur_vysya` booking CSV with the
    documented header and one data row. -/
def c1Csv : String :=
  "TXN DATE,IRCTC ORDER NO.,BANK BOOKING REF.NO.,BOOKING AMOUNT,CREDITED ON\n01-Jan-24,12345,67890,1500.50,05-Jan-24"

/-- A header carrying the canonical field names, as the row loops read
    them. -/
def c8Cols : List String :=
  ["irctc_order_no", "bank_booking_ref_no", "booking_amount", "refund_amount",
   "bank_refund_ref_no", "txn_date", "credited_date", "refund_date", "debited_date"]

/-- Two rows whose reference fields are all missing: both coerce to the
    narrow key `(0, 0)`. -/
def c8Rows : List (List CellVal) :=
  [[CellVal.na, CellVal.na, CellVal.na, CellVal.na, CellVal.na, CellVal.na, CellVal.na,
    CellVal.na, CellVal.na],
   [CellVal.na, CellVal.na, CellVal.na, CellVal.na, CellVal.na, CellVal.na, CellVal.na,
    CellVal.na, CellVal.na]]

/-! ## The claims -/

/-- C1: the claim says processing the `karur_vysya` booking CSV against an
    empty store persists exactly one `BookingData` record and returns the
    success status.  The code disagrees: the declared `column_mapping`
    rename of `BANK_MAPPINGS` is never applied, so after the selection the
    columns are still named `TXNDATE`, …, and the very first access
    `df['txn_date']` raises `KeyError`, which the top-level handler turns
    into the failure status; no record is persisted. -/
theorem C1_booking_run_returns_failure_and_no_records :
    process_uploaded_files c1Csv "kvb_booking.csv" "karur_vysya" "booking" emptyStore
      = ("Failed to process kvb_booking.csv: " ++ keyError "txn_date", emptyStore)
    ∧ (process_uploaded_files c1Csv "kvb_booking.csv" "karur_vysya" "booking"
        emptyStore).2.bookings.length = 0 := by decide

/-- C2 counterexample: the claim says every character of a normalized
    column name is a letter or a digit, but the normalization removes only
    the characters matched by the regex `\W+`, which keeps the underscore:
    normalizing `"A _ B."` yields `"A_B"`, whose underscore is neither a
    letter nor a digit. -/
theorem C2_normalized_output_keeps_underscore :
    cleanName "A _ B." = "A_B"
    ∧ ('_' ∈ (cleanName "A _ B.").data)
    ∧ ('_').isAlphanum = false := by decide

/-- C2 amended: normalization strips leading and trailing whitespace and
    then removes every character that is not a letter, a digit or an
    underscore; every character of the normalized output is a letter, a
    digit or an underscore, and a character survives exactly when it is a
    word character of the stripped input. -/
theorem C2_normalization_alnum_or_underscore (s : String) :
    (∀ c, c ∈ (cleanName s).data → (c.isAlpha = true ∨ c.isDigit = true ∨ c = '_'))
    ∧ (∀ c, c ∈ (cleanName s).data ↔ (c ∈ trimChars s.data ∧ isWordChar c = true)) := by
  constructor
  · intro c hc
    rw [show (cleanName s).data = (trimChars s.data).filter isWordChar from rfl,
      List.mem_filter] at hc
    have hw := hc.2
    simp only [isWordChar, Bool.or_eq_true, Char.isAlphanum, decide_eq_true_eq] at hw
    tauto
  · intro c
    rw [show (cleanName s).data = (trimChars s.data).filter isWordChar from rfl,
      List.mem_filter]

/-- C2 witness: the amended statement applied to the concrete name
    `" A."` and the character `A`. -/
theorem C2_normalization_witness :
    ('A'.isAlpha = true ∨ 'A'.isDigit = true ∨ 'A' = '_')
    ∧ ('A' ∈ (cleanName " A.").data ↔ ('A' ∈ trimChars " A.".data ∧ isWordChar 'A' = true)) :=
  ⟨(C2_normalization_alnum_or_underscore " A.").1 'A' (by decide),
    (C2_normalization_alnum_or_underscore " A.").2 'A'⟩

/-- C3 counterexample: the claim says the integer coercion of a reference
    field never raises, but `int('abc')` raises `ValueError` (modelled as
    the error case), which aborts the file. -/
theorem C3_int_coercion_raises_on_nonnumeric :
    coerceRefCell (CellVal.str "abc")
      = Except.error "invalid literal for int() with base 10: abc" := rfl

/-- C3 amended: a missing reference field coerces to zero and a wellformed
    integer literal coerces to its value, but a string that is not an
    integer literal raises `ValueError` (caught only at the top of the
    task, aborting the file's remaining rows); in particular a nonempty
    all-digit string coerces to its numeric value. -/
theorem C3_int_coercion_amended (c : CellVal) :
    (c = CellVal.na → coerceRefCell c = Except.ok 0)
    ∧ (∀ s n, c = CellVal.str s → parsePyInt s = some n → coerceRefCell c = Except.ok n)
    ∧ (∀ s, c = CellVal.str s → parsePyInt s = none →
        coerceRefCell c = Except.error ("invalid literal for int() with base 10: " ++ s))
    ∧ (∀ cs, c = CellVal.str (String.mk cs) → cs ≠ [] → (∀ ch ∈ cs, ch.isDigit = true) →
        coerceRefCell c = Except.ok (digitsToNat cs : Int)) := by
  refine ⟨?_, ?_, ?_, ?_⟩
  · rintro rfl; rfl
  · rintro s n rfl hp
    simp only [coerceRefCell, hp]
  · rintro s rfl hp
    simp only [coerceRefCell, hp]
  · rintro cs rfl hne hd
    simp only [coerceRefCell, parsePyInt_all_digits hne hd]

/-- C3 witness: the amended statement applied to the digit string `"123"`. -/
theorem C3_int_coercion_witness :
    coerceRefCell (CellVal.str "123") = Except.ok ((123 : Int)) := by
  have h := (C3_int_coercion_amended (CellVal.str "123")).2.2.2 ['1', '2', '3'] rfl
    (by decide) (by decide)
  simpa using h

/-- C4: the claim says a second submission of the identical file has every
    row skipped as duplicate, creates no record and still returns the
    success status.  In the code no booking run ever reaches the row loop
    (the unapplied rename makes `df['txn_date']` raise `KeyError` first),
    so the second run — like the first — returns the failure status with
    zero records and no row is ever examined for duplication. -/
theorem C4_second_submission_returns_failure_and_no_records :
    (process_uploaded_files c1Csv "kvb_booking.csv" "karur_vysya" "booking" emptyStore).2
      = emptyStore
    ∧ (process_uploaded_files c1Csv "kvb_booking.csv" "karur_vysya" "booking"
        (process_uploaded_files c1Csv "kvb_booking.csv" "karur_vysya" "booking" emptyStore).2)
      = ("Failed to process kvb_booking.csv: " ++ keyError "txn_date", emptyStore) := by decide

/-- C5: for every input the per-file task returns a single status string —
    the success message naming the file, or the failure message naming the
    file and the error text — and never propagates an exception (the
    embedding of the task is a total function whose every internal failure
    is routed to the failure string). -/
theorem C5_task_returns_single_status_string
    (file_content file_name bank_name transaction_type : String) (st : Store) :
    (process_uploaded_files file_content file_name bank_name transaction_type st).1
      = "Successfully processed " ++ file_name
    ∨ ∃ e, (process_uploaded_files file_content file_name bank_name transaction_type st).1
      = "Failed to process " ++ file_name ++ ": " ++ e := by
  cases h : runPipeline file_content file_name bank_name transaction_type st with
  | ok st1 => exact Or.inl (by simp [process_uploaded_files, h])
  | error p =>
    obtain ⟨e, st1⟩ := p
    exact Or.inr ⟨e, by simp [process_uploaded_files, h]⟩

/-- C6: date parsing tries the five explicit formats `%d-%b-%y`,
    `%Y-%m-%d`, `%d/%m/%Y`, `%d-%m-%Y`, `%m/%d/%Y` in that fixed order and
    the first success wins, falling back to the generic coercing parse only
    when all five fail; a null, empty or whitespace-only input parses to
    the missing value without raising; and the four claimed literals all
    parse to the calendar date 2024-01-01. -/
theorem C6_date_formats_order_first_wins :
    (∀ s d, strip s ≠ "" → parse_dMonY (strip s) = some d →
        try_parse_date (some s) = some d)
    ∧ (∀ s d, strip s ≠ "" → parse_dMonY (strip s) = none → parse_Ymd (strip s) = some d →
        try_parse_date (some s) = some d)
    ∧ (∀ s d, strip s ≠ "" → parse_dMonY (strip s) = none → parse_Ymd (strip s) = none →
        parse_dmY_slash (strip s) = some d → try_parse_date (some s) = some d)
    ∧ (∀ s d, strip s ≠ "" → parse_dMonY (strip s) = none → parse_Ymd (strip s) = none →
        parse_dmY_slash (strip s) = none → parse_dmY_dash (strip s) = some d →
        try_parse_date (some s) = some d)
    ∧ (∀ s d, strip s ≠ "" → parse_dMonY (strip s) = none → parse_Ymd (strip s) = none →
        parse_dmY_slash (strip s) = none → parse_dmY_dash (strip s) = none →
        parse_mdY_slash (strip s) = some d → try_parse_date (some s) = some d)
    ∧ (∀ s, strip s ≠ "" → (∀ f ∈ dateFormats, f (strip s) = none) →
        try_parse_date (some s) = pdToDatetimeCoerce (strip s))
    ∧ try_parse_date none = none
    ∧ try_parse_date (some "") = none
    ∧ try_parse_date (some "   ") = none
    ∧ try_parse_date (some "01-Jan-24") = some ⟨2024, 1, 1⟩
    ∧ try_parse_date (some "2024-01-01") = some ⟨2024, 1, 1⟩
    ∧ try_parse_date (some "01/01/2024") = some ⟨2024, 1, 1⟩
    ∧ try_parse_date (some "01-01-2024") = some ⟨2024, 1, 1⟩ := by
  refine ⟨?_, ?_, ?_, ?_, ?_, ?_, by decide, by decide, by decide, by decide, by decide,
    by decide, by decide⟩
  · intro s d hne h1
    simp only [try_parse_date, if_neg hne, dateFormats, List.findSome?_cons, h1]
  · intro s d hne h1 h2
    simp only [try_parse_date, if_neg hne, dateFormats, List.findSome?_cons, h1, h2]
  · intro s d hne h1 h2 h3
    simp only [try_parse_date, if_neg hne, dateFormats, List.findSome?_cons, h1, h2, h3]
  · intro s d hne h1 h2 h3 h4
    simp only [try_parse_date, if_neg hne, dateFormats, List.findSome?_cons, h1, h2, h3, h4]
  · intro s d hne h1 h2 h3 h4 h5
    simp only [try_parse_date, if_neg hne, dateFormats, List.findSome?_cons,
      h1, h2, h3, h4, h5]
  · intro s hne hall
    have h1 := hall parse_dMonY (by simp [dateFormats])
    have h2 := hall parse_Ymd (by simp [dateFormats])
    have h3 := hall parse_dmY_slash (by simp [dateFormats])
    have h4 := hall parse_dmY_dash (by simp [dateFormats])
    have h5 := hall parse_mdY_slash (by simp [dateFormats])
    simp only [try_parse_date, if_neg hne, dateFormats, List.findSome?_cons,
      List.findSome?_nil, h1, h2, h3, h4, h5]

/-- C6 witness: the second-format clause applied to the concrete literal
    `" 2024-01-01 "`, whose first format attempt fails. -/
theorem C6_date_formats_witness :
    try_parse_date (some " 2024-01-01 ") = some ⟨2024, 1, 1⟩ :=
  C6_date_formats_order_first_wins.2.1 " 2024-01-01 " ⟨2024, 1, 1⟩
    (by decide) (by decide) (by decide)

/-- C7: the claim says an unrecognized extension fails with the
    unsupported-format error text.  The file is indeed aborted with no rows
    read and no record created, but `convert_to_csv` catches its own
    `ValueError("Unsupported file format: ...")` and returns the empty
    string, so the task instead fails with the CSV reader's
    `EmptyDataError` text `No columns to parse from file`. -/
theorem C7_unsupported_extension_failure_text_swallowed :
    process_uploaded_files "dummy bytes" "report.pdf" "karur_vysya" "booking" emptyStore
      = ("Failed to process report.pdf: No columns to parse from file", emptyStore)
    ∧ convert_to_csv "dummy bytes" "report.pdf" = "" := by decide

/-- C8: under the sequential row loops, starting from stores whose records
    have pairwise-distinct narrow keys, the loops never create two records
    of the same kind with the same coerced
    `(irctc_order_no, bank_booking_ref_no)` pair — every insert is guarded
    by the existence check — and in particular at most one record of each
    kind carries the key `(0, 0)` shared by all rows whose reference fields
    are missing. -/
theorem C8_narrow_key_never_duplicated (bc : Nat) (cols : List String)
    (rows : List (List CellVal)) (st : Store)
    (hb : bookingKeysDistinct st) (hr : refundKeysDistinct st) :
    (bookingKeysDistinct (resultStore (processBookingRows bc cols rows st))
      ∧ (resultStore (processBookingRows bc cols rows st)).bookings.countP
          (fun b => decide (bkey b = ((0 : Int), (0 : Int)))) ≤ 1)
    ∧ (refundKeysDistinct (resultStore (processRefundRows bc cols rows st))
      ∧ (resultStore (processRefundRows bc cols rows st)).refunds.countP
          (fun r => decide (rkey r = ((0 : Int), (0 : Int)))) ≤ 1) := by
  have h1 := processBookingRows_preserves bc cols rows st hb
  have h2 := processRefundRows_preserves bc cols rows st hr
  exact ⟨⟨h1, countP_le_one_of_pairwise_ne bkey ((0 : Int), (0 : Int)) _ h1⟩,
    ⟨h2, countP_le_one_of_pairwise_ne rkey ((0 : Int), (0 : Int)) _ h2⟩⟩

/-- C8 witness: the statement applied to two rows whose reference fields
    are all missing, run from the empty store. -/
theorem C8_narrow_key_witness :
    (bookingKeysDistinct (resultStore (processBookingRows 40 c8Cols c8Rows emptyStore))
      ∧ (resultStore (processBookingRows 40 c8Cols c8Rows emptyStore)).bookings.countP
          (fun b => decide (bkey b = ((0 : Int), (0 : Int)))) ≤ 1)
    ∧ (refundKeysDistinct (resultStore (processRefundRows 40 c8Cols c8Rows emptyStore))
      ∧ (resultStore (processRefundRows 40 c8Cols c8Rows emptyStore)).refunds.countP
          (fun r => decide (rkey r = ((0 : Int), (0 : Int)))) ≤ 1) :=
  C8_narrow_key_never_duplicated 40 c8Cols c8Rows emptyStore
    List.Pairwise.nil List.Pairwise.nil

/-- C9: the per-file task is deterministic — the embedding is a pure
    function of the file bytes, the file name, the bank identifier, the
    record kind and the stored tables, so two runs from identical inputs
    and identical stored-table contents return the same status string and
    leave identical stored-table contents. -/
theorem C9_process_uploaded_files_deterministic
    (file_content file_name bank_name transaction_type : String) (s1 s2 : Store)
    (h : s1 = s2) :
    process_uploaded_files file_content file_name bank_name transaction_type s1
      = process_uploaded_files file_content file_name bank_name transaction_type s2 :=
  congrArg (process_uploaded_files file_content file_name bank_name transaction_type) h

/-- C9 witness: the statement applied to a concrete input and the empty
    store on both sides. -/
theorem C9_deterministic_witness :
    process_uploaded_files "a,b\n1,2" "f.csv" "hdfc" "booking" emptyStore
      = process_uploaded_files "a,b\n1,2" "f.csv" "hdfc" "booking" emptyStore :=
  C9_process_uploaded_files_deterministic "a,b\n1,2" "f.csv" "hdfc" "booking"
    emptyStore emptyStore rfl

/-- C10: the date-parsing helper is total over string and null inputs: it
    returns the missing value or a parsed date — a valid calendar date —
    and never raises (every format failure is absorbed inside the
    function). -/
theorem C10_try_parse_date_total_and_valid (x : Option String) :
    try_parse_date x = none ∨ ∃ d, try_parse_date x = some d ∧ ValidDate d := by
  cases x with
  | none => exact Or.inl rfl
  | some s =>
    by_cases h : strip s = ""
    · exact Or.inl (by simp [try_parse_date, h])
    · cases hf : dateFormats.findSome? (fun f => f (strip s)) with
      | none =>
        refine Or.inl ?_
        simp only [try_parse_date, if_neg h, hf, pdToDatetimeCoerce]
      | some d =>
        refine Or.inr ⟨d, ?_, ?_⟩
        · simp only [try_parse_date, if_neg h, hf]
        · obtain ⟨f, hmem, hfd⟩ := List.exists_of_findSome?_eq_some hf
          exact dateFormats_valid hmem hfd

end NewScaling
